import Mathlib

/-!
Shallow embedding of the `EvergrowAPI` client from
`src/front-end/shared/api-connection.js`.

The client keeps an in-memory access token (`this.token`) and refresh token
(`this.refreshToken`), mirrored to `localStorage` under the keys
`access_token` / `refresh_token`.  Network calls (`fetch`) are modelled by an
oracle: either a list of responses consumed in order (sequential runs) or a
function from the sent request to a response (interleaved runs).  Thrown
JavaScript exceptions are modelled with `Except`.
-/

/-- JavaScript string truthiness of a nullable string: `null`/`undefined` and
`""` are falsy, every other string is truthy.  Models checks such as
`if (this.token)`. -/
def strTruthy : Option String → Bool
  | none => false
  | some s => !s.isEmpty

/-- Template-literal interpolation of a nullable string:
a JS template literal renders `null` as the string "null". -/
def jsStr : Option String → String
  | none => "null"
  | some s => s

/-- JS `a || b` on a nullable string `a` with string fallback `b`:
returns `b` when `a` is absent or falsy (empty). -/
def truthyOr (a : Option String) (b : String) : String :=
  match a with
  | none => b
  | some s => if s.isEmpty then b else s

/-- Whether `p` is a prefix of the second character list. -/
def startsWithChars : List Char → List Char → Bool
  | [], _ => true
  | _ :: _, [] => false
  | p :: ps, c :: cs => p == c && startsWithChars ps cs

/-- Whether `pat` occurs as a contiguous run of the character list. -/
def containsChars (pat : List Char) : List Char → Bool
  | [] => pat.isEmpty
  | c :: cs => startsWithChars pat (c :: cs) || containsChars pat cs

/-- JS `String.prototype.includes`. -/
def includesSubstr (s pat : String) : Bool :=
  containsChars pat.data s.data

/-- The JSON fields of a response body that the client ever reads
(`data.access_token`, `data.message`, `data.error`).  An absent field is
`none` (JS `undefined`). -/
structure JsonBody where
  access_token : Option String
  message : Option String
  error : Option String
  deriving DecidableEq, Repr

/-- The parts of a `fetch` `Response` object that the client inspects.
`json` is the result of `await response.json()`; `none` means the body is not
valid JSON and `.json()` throws. -/
structure HttpResponse where
  status : Nat
  statusText : String
  contentType : Option String
  json : Option JsonBody
  deriving DecidableEq, Repr

/-- `Response.ok` per the fetch specification: status in the range 200–299. -/
def HttpResponse.ok (r : HttpResponse) : Bool :=
  decide (200 ≤ r.status) && decide (r.status ≤ 299)

/-- Outcome of one `fetch`: either the promise rejects with a network error
(a `TypeError`) or it resolves to a response. -/
inductive FetchResult where
  | network (e : String)
  | response (r : HttpResponse)
  deriving DecidableEq, Repr

/-- A request as put on the wire by `fetch`: URL, method, the headers object
(an association list, later writes overriding earlier ones), body, and
whether `mode: 'cors', credentials: 'include'` were passed. -/
structure SentRequest where
  url : String
  method : Option String
  headers : List (String × String)
  body : Option String
  cors : Bool
  deriving DecidableEq, Repr

/-- The `options` argument of `makeRequest` (default `{}`). -/
structure RequestOptions where
  method : Option String
  headers : List (String × String)
  body : Option String
  deriving DecidableEq, Repr

/-- Errors thrown by the client, separated by JS exception class:
`message` is `new Error(msg)`, `parseFailure` is the `SyntaxError` from
`response.json()`, `network` is the `TypeError` a failed `fetch` rejects
with. -/
inductive JsError where
  | message (m : String)
  | parseFailure
  | network (e : String)
  deriving DecidableEq, Repr

deriving instance DecidableEq for Except

/-- The value `handleResponse` resolves with: parsed JSON data, or the raw
`Response` object for non-JSON bodies. -/
inductive ApiResult where
  | jsonData (b : JsonBody)
  | rawResponse (r : HttpResponse)
  deriving DecidableEq, Repr

/-- The mutable state of an `EvergrowAPI` instance: `baseURL`, the in-memory
token fields, the two `localStorage` slots, and a counter of navigations to
the login page (`window.location.href = '/app/auth/login.html'`). -/
structure ClientState where
  baseURL : String
  token : Option String
  refreshToken : Option String
  storedAccess : Option String
  storedRefresh : Option String
  redirects : Nat
  deriving DecidableEq, Repr

/-- `getAPIBaseURL()` (lines 18–25): localhost gets the dev server,
everything else the production URL. -/
def getAPIBaseURL (hostname : String) : String :=
  if hostname = "localhost" ∨ hostname = "127.0.0.1" then "http://localhost:5001"
  else "https://api.evergrow360.com"

/-- `setTokens` (lines 129–134): writes both in-memory fields and both
`localStorage` keys.  Storage slots are modelled as optional strings written
through directly. -/
def setTokens (accessToken refreshToken : Option String) (s : ClientState) : ClientState :=
  { s with token := accessToken, refreshToken := refreshToken,
           storedAccess := accessToken, storedRefresh := refreshToken }

/-- `clearTokens` (lines 136–141): nulls both fields and removes both
`localStorage` keys. -/
def clearTokens (s : ClientState) : ClientState :=
  { s with token := none, refreshToken := none,
           storedAccess := none, storedRefresh := none }

/-- `window.location.href = '/app/auth/login.html'`, modelled as a counter. -/
def redirectToLogin (s : ClientState) : ClientState :=
  { s with redirects := s.redirects + 1 }

/-- `isAuthenticated` (lines 253–255): `!!this.token`. -/
def isAuthenticated (s : ClientState) : Bool :=
  strTruthy s.token

/-- Setting one key of a JS headers object (`headers[key] = val`): replaces
the existing entry in place, otherwise appends. -/
def setH (key val : String) : List (String × String) → List (String × String)
  | [] => [(key, val)]
  | kv :: rest => if kv.1 = key then (key, val) :: rest else kv :: setH key val rest

/-- Reading one key of a JS headers object. -/
def getH (key : String) : List (String × String) → Option String
  | [] => none
  | kv :: rest => if kv.1 = key then some kv.2 else getH key rest

/-- The value of the last write of `key` in a key-value list (JS object
literals and spreads let the last duplicate win). -/
def getHLast (key : String) (hs : List (String × String)) : Option String :=
  getH key hs.reverse

/-- The header object `{'Content-Type': 'application/json', ...options.headers}`
built at the top of `makeRequest` (lines 172–175): object spread is a
sequence of key writes over the base object. -/
def buildHeaders (optHeaders : List (String × String)) : List (String × String) :=
  optHeaders.foldl (fun acc kv => setH kv.1 kv.2 acc) [("Content-Type", "application/json")]

/-- `handleResponse` (lines 211–229): JSON bodies are parsed and returned, or
their `message`/`error` field is thrown for non-OK statuses; non-JSON
responses throw `HTTP <status>: <statusText>` when non-OK and otherwise
resolve with the raw response. -/
def handleResponse (response : HttpResponse) : Except JsError ApiResult :=
  if includesSubstr (jsStr response.contentType) "application/json"
      ∧ strTruthy response.contentType = true then
    match response.json with
    | none => .error .parseFailure
    | some data =>
      if response.ok = true then .ok (.jsonData data)
      else .error (.message (truthyOr data.message (truthyOr data.error "Request failed")))
  else
    if response.ok = true then .ok (.rawResponse response)
    else .error (.message ("HTTP " ++ toString response.status ++ ": " ++ response.statusText))

/-- A suspended asynchronous computation of the JS event loop: it has either
resolved (`done`), or it is awaiting an in-flight `fetch` of `req`; when the
response arrives the continuation runs atomically against the then-current
shared client state and yields the updated state together with the next
suspension. -/
inductive Proc (α : Type) where
  | done (r : α)
  | fetching (req : SentRequest) (k : FetchResult → ClientState → ClientState × Proc α)

/-- The request a process has just put on the wire, if it is suspended on one. -/
def emit {α : Type} : Proc α → List SentRequest
  | .done _ => []
  | .fetching req _ => [req]

/-- The request a process is awaiting, if any. -/
def sentRequestOf {α : Type} : Proc α → Option SentRequest
  | .done _ => none
  | .fetching req _ => some req

/-- `refreshAccessToken` (lines 143–168) in suspension style, parameterised
by the caller's continuation `k`.  It POSTs to `/api/auth/refresh` with
`Authorization: Bearer <refreshToken>`; on an OK response it parses the body
and calls `setTokens(data.access_token, this.refreshToken)`; any thrown error
(network failure, JSON parse failure, or the `Error('Token refresh failed')`
thrown for a non-OK status) is caught, the store is cleared, the browser is
redirected to the login page, and the error is rethrown. -/
def refreshAccessTokenProc {α : Type} (s : ClientState)
    (k : Except JsError (Option String) → ClientState → ClientState × Proc α) :
    ClientState × Proc α :=
  let req : SentRequest :=
    { url := s.baseURL ++ "/api/auth/refresh"
      method := some "POST"
      headers := [("Content-Type", "application/json"),
                  ("Authorization", "Bearer " ++ jsStr s.refreshToken)]
      body := none
      cors := true }
  (s, .fetching req (fun res s₁ =>
    match res with
    | .network e => k (.error (.network e)) (redirectToLogin (clearTokens s₁))
    | .response r =>
      if r.ok = true then
        match r.json with
        | none => k (.error .parseFailure) (redirectToLogin (clearTokens s₁))
        | some data =>
          k (.ok data.access_token) (setTokens data.access_token s₁.refreshToken s₁)
      else
        k (.error (.message "Token refresh failed")) (redirectToLogin (clearTokens s₁))))

/-- The header object of `makeRequest` after lines 172–180: the base object
spread with the caller's headers, then `Authorization: Bearer <token>`
written over it when the stored token is truthy. -/
def requestHeaders (opts : RequestOptions) (token : Option String) :
    List (String × String) :=
  if strTruthy token = true then
    setH "Authorization" ("Bearer " ++ jsStr token) (buildHeaders opts.headers)
  else buildHeaders opts.headers

/-- `makeRequest` (lines 170–209) in suspension style.  Builds the header
object, attaches `Authorization: Bearer <token>` when a token is truthy,
dispatches; on a 401 with a truthy refresh token it awaits
`refreshAccessToken`, overwrites the Authorization header from the (new)
`this.token`, re-dispatches the original request once (without the
cors/credentials options) and hands the retry response to `handleResponse`;
every other response goes to `handleResponse` directly; fetch rejections are
rethrown unchanged by the surrounding catch. -/
def makeRequestProc (endpoint : String) (opts : RequestOptions) (s : ClientState) :
    Proc (Except JsError ApiResult) :=
  let url := s.baseURL ++ endpoint
  let headers := requestHeaders opts s.token
  .fetching { url := url, method := opts.method, headers := headers,
              body := opts.body, cors := true }
    (fun res s₁ =>
      match res with
      | .network e => (s₁, .done (.error (.network e)))
      | .response response =>
        if response.status = 401 ∧ strTruthy s₁.refreshToken = true then
          refreshAccessTokenProc s₁ (fun outcome s₂ =>
            match outcome with
            | .error e => (s₂, .done (.error e))
            | .ok _ =>
              let headers₂ := setH "Authorization" ("Bearer " ++ jsStr s₂.token) headers
              (s₂, .fetching { url := url, method := opts.method, headers := headers₂,
                               body := opts.body, cors := false }
                (fun res₂ s₃ =>
                  match res₂ with
                  | .network e => (s₃, .done (.error (.network e)))
                  | .response r₂ => (s₃, .done (handleResponse r₂)))))
        else
          (s₁, .done (handleResponse response)))

/-- Run one process to completion against a list of fetch outcomes consumed
in order (the sequential, single-caller execution).  Returns the result, the
final client state, and the trace of requests put on the wire; `none` when
the fuel or the oracle runs out. -/
def runSeq {α : Type} : Nat → ClientState → Proc α → List FetchResult →
    List SentRequest → Option (α × ClientState × List SentRequest)
  | _, s, .done r, _, tr => some (r, s, tr)
  | 0, _, .fetching _ _, _, _ => none
  | _ + 1, _, .fetching _ _, [], _ => none
  | fuel + 1, s, .fetching _ k, res :: net', tr =>
    let next := k res s
    runSeq fuel next.1 next.2 net' (tr ++ emit next.2)

/-- A single sequential call of `makeRequest(endpoint, options)` starting in
state `s`, with `net` the fetch outcomes in arrival order. -/
def makeRequest (endpoint : String) (opts : RequestOptions) (s : ClientState)
    (net : List FetchResult) :
    Option (Except JsError ApiResult × ClientState × List SentRequest) :=
  let p := makeRequestProc endpoint opts s
  runSeq 4 s p net (emit p)

/-- A single sequential call of `refreshAccessToken()` starting in state `s`. -/
def refreshAccessTokenRun (s : ClientState) (net : List FetchResult) :
    Option (Except JsError (Option String) × ClientState × List SentRequest) :=
  let sp := refreshAccessTokenProc s (fun out s' => (s', Proc.done out))
  runSeq 2 sp.1 sp.2 net (emit sp.2)

/-- Two processes sharing one client state, with the trace of every request
either has put on the wire so far. -/
structure TwoState (α : Type) where
  client : ClientState
  proc1 : Proc α
  proc2 : Proc α
  trace : List SentRequest

/-- Deliver the response for a process's in-flight request (chosen by the
oracle `respond`) and run its continuation atomically. -/
def deliver {α : Type} (respond : SentRequest → FetchResult) (s : ClientState)
    (p : Proc α) : ClientState × Proc α × List SentRequest :=
  match p with
  | .done r => (s, .done r, [])
  | .fetching req k =>
    let next := k (respond req) s
    (next.1, next.2, emit next.2)

/-- One event-loop step: resume process 2 when the flag is true, else
process 1. -/
def step2 {α : Type} (respond : SentRequest → FetchResult) (toSecond : Bool)
    (st : TwoState α) : TwoState α :=
  if toSecond then
    let d := deliver respond st.client st.proc2
    { st with client := d.1, proc2 := d.2.1, trace := st.trace ++ d.2.2 }
  else
    let d := deliver respond st.client st.proc1
    { st with client := d.1, proc1 := d.2.1, trace := st.trace ++ d.2.2 }

/-- Run a two-process interleaving under an explicit schedule of response
deliveries. -/
def run2 {α : Type} (respond : SentRequest → FetchResult) (sched : List Bool)
    (st : TwoState α) : TwoState α :=
  sched.foldl (fun acc b => step2 respond b acc) st

/-- Two `makeRequest` calls issued from the event loop before either's first
response arrives: both build their requests against the same starting state. -/
def initTwo (e₁ e₂ : String) (o₁ o₂ : RequestOptions) (s : ClientState) :
    TwoState (Except JsError ApiResult) :=
  let p₁ := makeRequestProc e₁ o₁ s
  let p₂ := makeRequestProc e₂ o₂ s
  { client := s, proc1 := p₁, proc2 := p₂, trace := emit p₁ ++ emit p₂ }

/-- Whether a wire request targets the external auth-refresh endpoint. -/
def isRefreshRequest (base : String) (req : SentRequest) : Bool :=
  req.url = base ++ "/api/auth/refresh"

/-- Number of calls made to the external auth-refresh endpoint in a trace. -/
def refreshCallCount (base : String) (tr : List SentRequest) : Nat :=
  (tr.filter (isRefreshRequest base)).length

/-- The two JWT payload fields the client reads: `exp` (seconds since epoch)
and `sub`.  An absent field is `none` (JS `undefined`). -/
structure JwtPayload where
  exp : Option Int
  sub : Option String
  deriving DecidableEq, Repr

/-- `setupTokenRefresh` (lines 231–250).  `decodeJwt` models the platform
pipeline `JSON.parse(atob(token.split('.')[1]))`, with `none` standing for
any exception it throws (swallowed by the surrounding try/catch).  With a
truthy token whose payload decodes and carries an `exp`, the refresh time is
`exp*1000 - 5*60*1000`; a one-shot timer with that positive delay is armed
only when the refresh time is strictly in the future (`refreshTime > now`),
and the result is the armed delay.  In every other case (falsy token, decode
failure, absent `exp` — whose `undefined*1000` arithmetic yields `NaN`, for
which `NaN > now` is false — or a refresh time at or before `now`) nothing
happens and the result is `none`. -/
def setupTokenRefresh (decodeJwt : String → Option JwtPayload) (now : Int)
    (s : ClientState) : Option Int :=
  if strTruthy s.token = true then
    match decodeJwt (jsStr s.token) with
    | none => none
    | some payload =>
      match payload.exp with
      | none => none
      | some exp =>
        let expirationTime := exp * 1000
        let refreshTime := expirationTime - 5 * 60 * 1000
        if refreshTime > now then some (refreshTime - now) else none
  else none

/-- `getCurrentUserId` (lines 258–268): `null` for a falsy token, otherwise
the decoded payload's `sub`, with any decode exception caught and turned
into `null`. -/
def getCurrentUserId (decodeJwt : String → Option JwtPayload) (s : ClientState) :
    Option String :=
  if strTruthy s.token = true then
    match decodeJwt (jsStr s.token) with
    | none => none
    | some payload => payload.sub
  else none

/-- An `EvergrowAPI` instance together with its armed, not-yet-fired
proactive-refresh timer delays.  The source never stores or cancels a timer
id, so a timer, once armed, stays pending until it fires. -/
structure SessionState where
  client : ClientState
  pendingTimers : List Int
  deriving DecidableEq, Repr

/-- The constructor (lines 9–16): loads both tokens from `localStorage`,
computes `baseURL` from the hostname, and calls `setupTokenRefresh` once,
arming at most one timer. -/
def constructorInit (decodeJwt : String → Option JwtPayload) (now : Int)
    (hostname : String) (storedAccess storedRefresh : Option String) : SessionState :=
  let c : ClientState :=
    { baseURL := getAPIBaseURL hostname
      token := storedAccess
      refreshToken := storedRefresh
      storedAccess := storedAccess
      storedRefresh := storedRefresh
      redirects := 0 }
  { client := c, pendingTimers := (setupTokenRefresh decodeJwt now c).toList }

/-- `setTokens` at the session level: the source body (lines 129–134)
contains no `setTimeout`, no `clearTimeout` and no call to
`setupTokenRefresh`, so the pending-timer set is untouched. -/
def setTokensS (accessToken refreshToken : Option String) (ss : SessionState) :
    SessionState :=
  { client := setTokens accessToken refreshToken ss.client
    pendingTimers := ss.pendingTimers }

/-! ### Helper lemmas -/

theorem strTruthy_some {t : String} (h : t ≠ "") : strTruthy (some t) = true := by
  cases ht : t.isEmpty with
  | true => exact absurd ((String.isEmpty_iff t).mp ht) h
  | false => simp [strTruthy, ht]

theorem ok_false_of_401 {r : HttpResponse} (h : r.status = 401) : r.ok = false := by
  simp [HttpResponse.ok, h]

theorem handleResponse_isError {r : HttpResponse} (h : r.ok = false) :
    ∃ e, handleResponse r = Except.error e := by
  unfold handleResponse
  split
  · cases hj : r.json with
    | none => exact ⟨.parseFailure, rfl⟩
    | some data =>
      exact ⟨.message (truthyOr data.message (truthyOr data.error "Request failed")),
        by simp [h]⟩
  · exact ⟨.message ("HTTP " ++ toString r.status ++ ": " ++ r.statusText), by simp [h]⟩

theorem getH_setH_self (key val : String) (hs : List (String × String)) :
    getH key (setH key val hs) = some val := by
  induction hs with
  | nil => simp [setH, getH]
  | cons kv rest ih =>
    by_cases hk : kv.1 = key
    · simp [setH, getH, hk]
    · simp [setH, getH, hk, ih]

theorem getH_setH_of_ne (key key' val : String) (hs : List (String × String))
    (h : key' ≠ key) : getH key (setH key' val hs) = getH key hs := by
  induction hs with
  | nil => simp [setH, getH, h]
  | cons kv rest ih =>
    by_cases hk : kv.1 = key'
    · simp [setH, getH, hk, h, Ne.symm h]
    · by_cases hk2 : kv.1 = key
      · simp [setH, getH, hk, hk2, Ne.symm h]
      · simp [setH, getH, hk, hk2, ih]

theorem getH_append (key : String) (l₁ l₂ : List (String × String)) :
    getH key (l₁ ++ l₂) =
      match getH key l₁ with
      | some v => some v
      | none => getH key l₂ := by
  induction l₁ with
  | nil => simp [getH]
  | cons kv rest ih =>
    by_cases hk : kv.1 = key
    · simp [getH, hk]
    · simp [getH, hk, ih]

theorem getH_foldl_setH (key : String) (hs init : List (String × String)) :
    getH key (hs.foldl (fun acc kv => setH kv.1 kv.2 acc) init) =
      match getHLast key hs with
      | some v => some v
      | none => getH key init := by
  induction hs generalizing init with
  | nil => simp [getHLast, getH]
  | cons kv rest ih =>
    rw [List.foldl_cons, ih]
    by_cases hk : kv.1 = key
    · subst hk
      rw [getH_setH_self]
      simp only [getHLast, List.reverse_cons, getH_append, getH]
      cases getH kv.1 rest.reverse <;> simp
    · rw [getH_setH_of_ne _ _ _ _ hk]
      simp only [getHLast, List.reverse_cons, getH_append, getH, hk]
      cases getH key rest.reverse <;> simp [hk]

theorem getH_buildHeaders (key : String) (hs : List (String × String))
    (h : key ≠ "Content-Type") :
    getH key (buildHeaders hs) = getHLast key hs := by
  rw [buildHeaders, getH_foldl_setH]
  cases getHLast key hs <;> simp [getH, Ne.symm h]

/-! ### C7 — idempotence and effect of clear -/

/-- C7: `clearTokens` is idempotent — clearing twice yields the same state as
clearing once — and after any clear, `isAuthenticated()` is false and the
access credential (both the in-memory `token` field and the persisted slot)
is `none`, as are both refresh slots. -/
theorem c7_clear_idempotent (s : ClientState) :
    clearTokens (clearTokens s) = clearTokens s
    ∧ isAuthenticated (clearTokens s) = false
    ∧ (clearTokens s).token = none
    ∧ (clearTokens s).storedAccess = none
    ∧ (clearTokens s).refreshToken = none
    ∧ (clearTokens s).storedRefresh = none := by
  refine ⟨rfl, ?_, rfl, rfl, rfl, rfl⟩
  simp [isAuthenticated, clearTokens, strTruthy]

/-! ### C8 — getCurrentUserId decodes locally and never throws -/

/-- C8: `getCurrentUserId` is a pure function of the stored access token and
the local decode pipeline — its type takes no network oracle and it emits no
request, so it performs no network access.  With no token (or the falsy
empty token) it returns `none`; when decoding throws (modelled `none`) the
exception is caught and `none` is returned rather than propagated; on a
successful decode it returns the payload's `sub`; and its value depends only
on the `token` field of the state. -/
theorem c8_getCurrentUserId_local (decodeJwt : String → Option JwtPayload)
    (s s' : ClientState) (t : String) (p : JwtPayload)
    (hs' : s'.token = s.token) :
    (s.token = none → getCurrentUserId decodeJwt s = none)
    ∧ (s.token = some "" → getCurrentUserId decodeJwt s = none)
    ∧ (s.token = some t → decodeJwt t = none → getCurrentUserId decodeJwt s = none)
    ∧ (s.token = some t → t ≠ "" → decodeJwt t = some p →
        getCurrentUserId decodeJwt s = p.sub)
    ∧ getCurrentUserId decodeJwt s' = getCurrentUserId decodeJwt s := by
  have hempty : strTruthy (some "") = false := by decide
  refine ⟨?_, ?_, ?_, ?_, ?_⟩
  · intro h; simp [getCurrentUserId, h, strTruthy]
  · intro h; rw [getCurrentUserId, h, hempty]; simp
  · intro h hd
    by_cases ht : t = ""
    · subst ht; rw [getCurrentUserId, h, hempty]; simp
    · simp [getCurrentUserId, h, strTruthy_some ht, jsStr, hd]
  · intro h ht hd
    simp [getCurrentUserId, h, strTruthy_some ht, jsStr, hd]
  · simp [getCurrentUserId, hs']

/-- Witness for C8 at a concrete decode pipeline and states. -/
theorem c8_getCurrentUserId_local_witness :
    getCurrentUserId (fun t => if t = "tok8" then some ⟨some 1700000000, some "user-42"⟩ else none)
      { baseURL := "b", token := some "tok8", refreshToken := none,
        storedAccess := some "tok8", storedRefresh := none, redirects := 0 }
      = some "user-42" := by
  have h := c8_getCurrentUserId_local
    (fun t => if t = "tok8" then some ⟨some 1700000000, some "user-42"⟩ else none)
    { baseURL := "b", token := some "tok8", refreshToken := none,
      storedAccess := some "tok8", storedRefresh := none, redirects := 0 }
    { baseURL := "b", token := some "tok8", refreshToken := none,
      storedAccess := some "tok8", storedRefresh := none, redirects := 0 }
    "tok8" ⟨some 1700000000, some "user-42"⟩ rfl
  exact h.2.2.2.1 rfl (by decide) (by simp)

/-! ### C9 — a successful refresh changes only the access credential -/

/-- C9: for every successful refresh (OK response with a parsed body),
`refreshAccessToken` calls `setTokens(data.access_token, this.refreshToken)`,
so the new access token is installed while the stored refresh credential —
both the in-memory field and the persisted slot — is exactly the refresh
credential held before the call; no rotated refresh credential from the
response is ever installed. -/
theorem c9_refresh_preserves_refresh_credential
    (s : ClientState) (r : HttpResponse) (d : JsonBody) (rt : String)
    (hrt : s.refreshToken = some rt) (hst : s.storedRefresh = some rt)
    (hok : r.ok = true) (hj : r.json = some d) :
    refreshAccessTokenRun s [.response r]
      = some (.ok d.access_token, setTokens d.access_token (some rt) s,
          [{ url := s.baseURL ++ "/api/auth/refresh", method := some "POST",
             headers := [("Content-Type", "application/json"),
                         ("Authorization", "Bearer " ++ rt)],
             body := none, cors := true }])
    ∧ (setTokens d.access_token (some rt) s).refreshToken = s.refreshToken
    ∧ (setTokens d.access_token (some rt) s).storedRefresh = s.storedRefresh
    ∧ (setTokens d.access_token (some rt) s).token = d.access_token
    ∧ (setTokens d.access_token (some rt) s).redirects = s.redirects := by
  refine ⟨?_, ?_, ?_, rfl, rfl⟩
  · simp [refreshAccessTokenRun, refreshAccessTokenProc, runSeq, emit, hok, hj, hrt, jsStr]
  · simp [setTokens, hrt]
  · simp [setTokens, hst]

/-- Witness for C9: a concrete successful refresh. -/
theorem c9_refresh_preserves_refresh_credential_witness :
    refreshAccessTokenRun
      { baseURL := "http://localhost:5001", token := some "A1", refreshToken := some "R1",
        storedAccess := some "A1", storedRefresh := some "R1", redirects := 0 }
      [.response { status := 200, statusText := "OK",
                   contentType := some "application/json",
                   json := some { access_token := some "A2", message := none, error := none } }]
      = some (.ok (some "A2"),
          setTokens (some "A2") (some "R1")
            { baseURL := "http://localhost:5001", token := some "A1", refreshToken := some "R1",
              storedAccess := some "A1", storedRefresh := some "R1", redirects := 0 },
          [{ url := "http://localhost:5001" ++ "/api/auth/refresh", method := some "POST",
             headers := [("Content-Type", "application/json"),
                         ("Authorization", "Bearer " ++ "R1")],
             body := none, cors := true }]) :=
  (c9_refresh_preserves_refresh_credential
    { baseURL := "http://localhost:5001", token := some "A1", refreshToken := some "R1",
      storedAccess := some "A1", storedRefresh := some "R1", redirects := 0 }
    { status := 200, statusText := "OK", contentType := some "application/json",
      json := some { access_token := some "A2", message := none, error := none } }
    { access_token := some "A2", message := none, error := none } "R1"
    rfl rfl (by decide) rfl).1

/-! ### C6 — every terminal refresh failure clears the store first -/

/-- C6: when the refresh response is non-OK (in particular the 401
authorization-failure signal) the store is cleared, the browser is sent to
the login page, and the caller receives the dedicated
`Error('Token refresh failed')` — which is not a network error; when the
refresh fetch itself fails, the store is likewise cleared before the network
error is rethrown.  In both cases the state returned alongside the error is
already the cleared one. -/
theorem c6_refresh_failure_clears_before_error
    (s : ClientState) (r : HttpResponse) (e : String) (hok : r.ok = false) :
    refreshAccessTokenRun s [.response r]
      = some (.error (.message "Token refresh failed"),
          redirectToLogin (clearTokens s),
          [{ url := s.baseURL ++ "/api/auth/refresh", method := some "POST",
             headers := [("Content-Type", "application/json"),
                         ("Authorization", "Bearer " ++ jsStr s.refreshToken)],
             body := none, cors := true }])
    ∧ refreshAccessTokenRun s [.network e]
      = some (.error (.network e),
          redirectToLogin (clearTokens s),
          [{ url := s.baseURL ++ "/api/auth/refresh", method := some "POST",
             headers := [("Content-Type", "application/json"),
                         ("Authorization", "Bearer " ++ jsStr s.refreshToken)],
             body := none, cors := true }])
    ∧ (redirectToLogin (clearTokens s)).token = none
    ∧ (redirectToLogin (clearTokens s)).refreshToken = none
    ∧ (redirectToLogin (clearTokens s)).storedAccess = none
    ∧ (redirectToLogin (clearTokens s)).storedRefresh = none
    ∧ ∀ e', JsError.message "Token refresh failed" ≠ JsError.network e' := by
  refine ⟨?_, ?_, rfl, rfl, rfl, rfl, fun e' h => JsError.noConfusion h⟩
  · simp [refreshAccessTokenRun, refreshAccessTokenProc, runSeq, emit, hok]
  · simp [refreshAccessTokenRun, refreshAccessTokenProc, runSeq, emit]

/-- Witness for C6: a refresh answered with the 401 authorization-failure
signal, alongside a refresh whose fetch rejects. -/
theorem c6_refresh_failure_clears_before_error_witness :
    refreshAccessTokenRun
      { baseURL := "http://localhost:5001", token := some "A1", refreshToken := some "R1",
        storedAccess := some "A1", storedRefresh := some "R1", redirects := 0 }
      [.response { status := 401, statusText := "UNAUTHORIZED",
                   contentType := some "application/json",
                   json := some { access_token := none, message := some "Token has been revoked",
                                  error := none } }]
      = some (.error (.message "Token refresh failed"),
          redirectToLogin (clearTokens
            { baseURL := "http://localhost:5001", token := some "A1", refreshToken := some "R1",
              storedAccess := some "A1", storedRefresh := some "R1", redirects := 0 }),
          [{ url := "http://localhost:5001" ++ "/api/auth/refresh", method := some "POST",
             headers := [("Content-Type", "application/json"),
                         ("Authorization", "Bearer " ++ jsStr (some "R1"))],
             body := none, cors := true }]) :=
  (c6_refresh_failure_clears_before_error
    { baseURL := "http://localhost:5001", token := some "A1", refreshToken := some "R1",
      storedAccess := some "A1", storedRefresh := some "R1", redirects := 0 }
    { status := 401, statusText := "UNAUTHORIZED", contentType := some "application/json",
      json := some { access_token := none, message := some "Token has been revoked",
                     error := none } }
    "NetworkError when attempting to fetch resource" (by decide)).1

/-! ### C10 — Authorization header ownership -/

/-- C10: the request `makeRequest` puts on the wire carries
`Authorization: Bearer <token>` — overriding any caller-supplied
Authorization entry — whenever an access token is stored (truthy), while
with no stored token the header object is exactly the spread of the caller's
headers over the base object, so a caller-supplied Authorization header
passes through unchanged (its last write, per JS object-spread semantics). -/
theorem c10_authorization_header_ownership
    (endpoint : String) (opts : RequestOptions) (s : ClientState) (t : String) :
    (s.token = some t → t ≠ "" →
      ∃ req, sentRequestOf (makeRequestProc endpoint opts s) = some req
        ∧ getH "Authorization" req.headers = some ("Bearer " ++ t))
    ∧ (s.token = none →
      ∃ req, sentRequestOf (makeRequestProc endpoint opts s) = some req
        ∧ req.headers = buildHeaders opts.headers
        ∧ getH "Authorization" req.headers = getHLast "Authorization" opts.headers) := by
  constructor
  · intro h ht
    refine ⟨_, rfl, ?_⟩
    show getH "Authorization" (requestHeaders opts s.token) = some ("Bearer " ++ t)
    rw [requestHeaders, h, strTruthy_some ht]
    simp [jsStr, getH_setH_self]
  · intro h
    refine ⟨_, rfl, ?_, ?_⟩
    · show requestHeaders opts s.token = buildHeaders opts.headers
      rw [requestHeaders, h]
      simp [strTruthy]
    · show getH "Authorization" (requestHeaders opts s.token)
        = getHLast "Authorization" opts.headers
      rw [requestHeaders, h]
      simp only [strTruthy, Bool.false_eq_true, if_false]
      exact getH_buildHeaders _ _ (by decide)

/-- Witness for C10: with a stored token the caller's Authorization header is
overridden; with none it passes through. -/
theorem c10_authorization_header_ownership_witness :
    (∃ req, sentRequestOf (makeRequestProc "/api/user/profile"
        { method := none, headers := [("Authorization", "Bearer EVIL")], body := none }
        { baseURL := "http://localhost:5001", token := some "TOK", refreshToken := none,
          storedAccess := some "TOK", storedRefresh := none, redirects := 0 }) = some req
      ∧ getH "Authorization" req.headers = some ("Bearer " ++ "TOK"))
    ∧ (∃ req, sentRequestOf (makeRequestProc "/api/user/profile"
        { method := none, headers := [("Authorization", "Bearer CALLER")], body := none }
        { baseURL := "http://localhost:5001", token := none, refreshToken := none,
          storedAccess := none, storedRefresh := none, redirects := 0 }) = some req
      ∧ req.headers = buildHeaders [("Authorization", "Bearer CALLER")]
      ∧ getH "Authorization" req.headers
          = getHLast "Authorization" [("Authorization", "Bearer CALLER")]) :=
  ⟨(c10_authorization_header_ownership "/api/user/profile"
      { method := none, headers := [("Authorization", "Bearer EVIL")], body := none }
      { baseURL := "http://localhost:5001", token := some "TOK", refreshToken := none,
        storedAccess := some "TOK", storedRefresh := none, redirects := 0 } "TOK").1
      rfl (by decide),
   (c10_authorization_header_ownership "/api/user/profile"
      { method := none, headers := [("Authorization", "Bearer CALLER")], body := none }
      { baseURL := "http://localhost:5001", token := none, refreshToken := none,
        storedAccess := none, storedRefresh := none, redirects := 0 } "unused").2
      rfl⟩

/-! ### C1 — retry-once law -/

/-- C1: when the first dispatch answers 401 while a refresh credential is
stored, `makeRequest` performs the refresh, re-dispatches the original
request exactly once — same URL, method and body, with the Authorization
header overwritten to the freshly installed access token — and when that
retry also answers 401 it returns exactly `handleResponse` of the second
response, which is an error: the trace holds exactly one call to the refresh
endpoint and no further retry. -/
theorem c1_retry_once
    (endpoint : String) (opts : RequestOptions) (s : ClientState)
    (r₁ rr r₂ : HttpResponse) (d : JsonBody) (newTok : String)
    (hrt : strTruthy s.refreshToken = true)
    (h₁ : r₁.status = 401)
    (hok : rr.ok = true) (hj : rr.json = some d) (ha : d.access_token = some newTok)
    (h₂ : r₂.status = 401)
    (hne : s.baseURL ++ endpoint ≠ s.baseURL ++ "/api/auth/refresh") :
    makeRequest endpoint opts s [.response r₁, .response rr, .response r₂]
      = some (handleResponse r₂, setTokens (some newTok) s.refreshToken s,
          [{ url := s.baseURL ++ endpoint, method := opts.method,
             headers := requestHeaders opts s.token, body := opts.body, cors := true },
           { url := s.baseURL ++ "/api/auth/refresh", method := some "POST",
             headers := [("Content-Type", "application/json"),
                         ("Authorization", "Bearer " ++ jsStr s.refreshToken)],
             body := none, cors := true },
           { url := s.baseURL ++ endpoint, method := opts.method,
             headers := setH "Authorization" ("Bearer " ++ newTok)
               (requestHeaders opts s.token),
             body := opts.body, cors := false }])
    ∧ refreshCallCount s.baseURL
        [{ url := s.baseURL ++ endpoint, method := opts.method,
           headers := requestHeaders opts s.token, body := opts.body, cors := true },
         { url := s.baseURL ++ "/api/auth/refresh", method := some "POST",
           headers := [("Content-Type", "application/json"),
                       ("Authorization", "Bearer " ++ jsStr s.refreshToken)],
           body := none, cors := true },
         { url := s.baseURL ++ endpoint, method := opts.method,
           headers := setH "Authorization" ("Bearer " ++ newTok)
             (requestHeaders opts s.token),
           body := opts.body, cors := false }] = 1
    ∧ getH "Authorization"
        (setH "Authorization" ("Bearer " ++ newTok) (requestHeaders opts s.token))
        = some ("Bearer " ++ newTok)
    ∧ ∃ e, handleResponse r₂ = Except.error e := by
  refine ⟨?_, ?_, getH_setH_self _ _ _, handleResponse_isError (ok_false_of_401 h₂)⟩
  · simp [makeRequest, makeRequestProc, refreshAccessTokenProc, runSeq, emit,
      hrt, h₁, hok, hj, ha, setTokens, jsStr]
  · simp [refreshCallCount, List.filter, isRefreshRequest, hne]

/-- Witness for C1: a concrete 401 / successful refresh / second 401 run. -/
theorem c1_retry_once_witness :
    makeRequest "/api/user/profile" { method := none, headers := [], body := none }
      { baseURL := "http://localhost:5001", token := some "A1", refreshToken := some "R1",
        storedAccess := some "A1", storedRefresh := some "R1", redirects := 0 }
      [.response { status := 401, statusText := "UNAUTHORIZED",
                   contentType := some "application/json",
                   json := some { access_token := none, message := some "Token has expired",
                                  error := none } },
       .response { status := 200, statusText := "OK",
                   contentType := some "application/json",
                   json := some { access_token := some "A2", message := none, error := none } },
       .response { status := 401, statusText := "UNAUTHORIZED",
                   contentType := some "application/json",
                   json := some { access_token := none, message := some "Fresh token rejected",
                                  error := none } }]
      = some (handleResponse
            { status := 401, statusText := "UNAUTHORIZED",
              contentType := some "application/json",
              json := some { access_token := none, message := some "Fresh token rejected",
                             error := none } },
          setTokens (some "A2") (some "R1")
            { baseURL := "http://localhost:5001", token := some "A1", refreshToken := some "R1",
              storedAccess := some "A1", storedRefresh := some "R1", redirects := 0 },
          [{ url := "http://localhost:5001" ++ "/api/user/profile", method := none,
             headers := requestHeaders { method := none, headers := [], body := none }
               (some "A1"),
             body := none, cors := true },
           { url := "http://localhost:5001" ++ "/api/auth/refresh", method := some "POST",
             headers := [("Content-Type", "application/json"),
                         ("Authorization", "Bearer " ++ jsStr (some "R1"))],
             body := none, cors := true },
           { url := "http://localhost:5001" ++ "/api/user/profile", method := none,
             headers := setH "Authorization" ("Bearer " ++ "A2")
               (requestHeaders { method := none, headers := [], body := none } (some "A1")),
             body := none, cors := false }]) :=
  (c1_retry_once "/api/user/profile" { method := none, headers := [], body := none }
    { baseURL := "http://localhost:5001", token := some "A1", refreshToken := some "R1",
      storedAccess := some "A1", storedRefresh := some "R1", redirects := 0 }
    { status := 401, statusText := "UNAUTHORIZED", contentType := some "application/json",
      json := some { access_token := none, message := some "Token has expired", error := none } }
    { status := 200, statusText := "OK", contentType := some "application/json",
      json := some { access_token := some "A2", message := none, error := none } }
    { status := 401, statusText := "UNAUTHORIZED", contentType := some "application/json",
      json := some { access_token := none, message := some "Fresh token rejected", error := none } }
    { access_token := some "A2", message := none, error := none } "A2"
    (by decide) rfl (by decide) rfl rfl rfl (by decide)).1

/-! ### C3 — 401 without a stored refresh credential -/

/-- C3 counterexample: with an access token stored but no refresh token, a
401 dispatch leaves the Credential Store untouched — the token is still
present in memory and in storage afterwards — and the caller receives the
generic error built from the response body, not a dedicated
re-authentication failure and not a cleared store, contradicting the claim
that the store is cleared and a "re-authentication required" failure is
propagated. -/
theorem c3_counterexample :
    makeRequest "/api/user/profile" { method := none, headers := [], body := none }
      { baseURL := "http://localhost:5001", token := some "A1", refreshToken := none,
        storedAccess := some "A1", storedRefresh := none, redirects := 0 }
      [.response { status := 401, statusText := "UNAUTHORIZED",
                   contentType := some "application/json",
                   json := some { access_token := none,
                                  message := some "Missing Authorization Header",
                                  error := none } }]
      = some (.error (.message "Missing Authorization Header"),
          { baseURL := "http://localhost:5001", token := some "A1", refreshToken := none,
            storedAccess := some "A1", storedRefresh := none, redirects := 0 },
          [{ url := "http://localhost:5001/api/user/profile", method := none,
             headers := [("Content-Type", "application/json"),
                         ("Authorization", "Bearer A1")],
             body := none, cors := true }])
    ∧ ({ baseURL := "http://localhost:5001", token := some "A1", refreshToken := none,
         storedAccess := some "A1", storedRefresh := none,
         redirects := 0 } : ClientState).token = some "A1" := by
  exact ⟨by decide, rfl⟩

/-- C3 amended: for every request whose dispatch answers 401 while no
refresh credential is stored (a falsy `refreshToken`), `makeRequest` treats
the response like any other failure: it returns `handleResponse` of that
response — an error built from the response body or status — and the client
state is returned exactly as it was; the Credential Store is not cleared and
no dedicated "re-authentication required" failure is produced. -/
theorem c3_amended_401_without_refresh_leaves_store
    (endpoint : String) (opts : RequestOptions) (s : ClientState) (r : HttpResponse)
    (hrt : strTruthy s.refreshToken = false) (h : r.status = 401) :
    makeRequest endpoint opts s [.response r]
      = some (handleResponse r, s,
          [{ url := s.baseURL ++ endpoint, method := opts.method,
             headers := requestHeaders opts s.token, body := opts.body, cors := true }])
    ∧ ∃ e, handleResponse r = Except.error e := by
  refine ⟨?_, handleResponse_isError (ok_false_of_401 h)⟩
  simp [makeRequest, makeRequestProc, runSeq, emit, hrt, h]

/-- Witness for the amended C3 at a concrete state and response. -/
theorem c3_amended_401_without_refresh_leaves_store_witness :
    makeRequest "/api/assessment/results/7" { method := none, headers := [], body := none }
      { baseURL := "http://localhost:5001", token := some "A9", refreshToken := some "",
        storedAccess := some "A9", storedRefresh := some "", redirects := 0 }
      [.response { status := 401, statusText := "UNAUTHORIZED", contentType := none,
                   json := none }]
      = some (handleResponse
            { status := 401, statusText := "UNAUTHORIZED", contentType := none,
              json := none },
          { baseURL := "http://localhost:5001", token := some "A9", refreshToken := some "",
            storedAccess := some "A9", storedRefresh := some "", redirects := 0 },
          [{ url := "http://localhost:5001" ++ "/api/assessment/results/7", method := none,
             headers := requestHeaders { method := none, headers := [], body := none }
               (some "A9"),
             body := none, cors := true }]) :=
  (c3_amended_401_without_refresh_leaves_store "/api/assessment/results/7"
    { method := none, headers := [], body := none }
    { baseURL := "http://localhost:5001", token := some "A9", refreshToken := some "",
      storedAccess := some "A9", storedRefresh := some "", redirects := 0 }
    { status := 401, statusText := "UNAUTHORIZED", contentType := none, json := none }
    (by decide) rfl).1

/-! ### C2 — no single-flight refresh coordination -/

/-- Starting state for the concurrent-401 scenario: an expired access token
`A1` and refresh token `R1`. -/
def c2State : ClientState :=
  { baseURL := "http://localhost:5001", token := some "A1", refreshToken := some "R1",
    storedAccess := some "A1", storedRefresh := some "R1", redirects := 0 }

/-- Server behaviour for the concurrent-401 scenario: the refresh endpoint
answers 200 with a fresh token `A2`; business requests carrying `Bearer A2`
answer 200; everything else (the expired `A1`) answers 401. -/
def c2Respond (req : SentRequest) : FetchResult :=
  if isRefreshRequest "http://localhost:5001" req = true then
    .response { status := 200, statusText := "OK", contentType := some "application/json",
                json := some { access_token := some "A2", message := none, error := none } }
  else if getH "Authorization" req.headers = some "Bearer A2" then
    .response { status := 200, statusText := "OK", contentType := some "application/json",
                json := some { access_token := none, message := some "ok", error := none } }
  else
    .response { status := 401, statusText := "UNAUTHORIZED",
                contentType := some "application/json",
                json := some { access_token := none, message := some "Token has expired",
                               error := none } }

/-- The interleaving in which both calls observe their 401 before either
refresh response arrives: deliver each call's first response, then each
call's refresh response, then each retry response. -/
def c2Schedule : List Bool := [false, true, false, true, false, true]

/-- C2 counterexample: two concurrent calls that both hit the
authorization-failure signal against the same stored credential make TWO
calls to the external auth-refresh endpoint — one each — under the legal
event-loop interleaving `c2Schedule`, even though both runs complete
successfully; the claim that exactly one refresh call is issued is false. -/
theorem c2_counterexample :
    refreshCallCount "http://localhost:5001"
      (run2 c2Respond c2Schedule
        (initTwo "/api/user/profile" "/api/coaching/plans"
          { method := none, headers := [], body := none }
          { method := none, headers := [], body := none } c2State)).trace = 2
    ∧ 1 < refreshCallCount "http://localhost:5001"
        (run2 c2Respond c2Schedule
          (initTwo "/api/user/profile" "/api/coaching/plans"
            { method := none, headers := [], body := none }
            { method := none, headers := [], body := none } c2State)).trace
    ∧ (run2 c2Respond c2Schedule
        (initTwo "/api/user/profile" "/api/coaching/plans"
          { method := none, headers := [], body := none }
          { method := none, headers := [], body := none } c2State)).proc1
        = .done (.ok (.jsonData { access_token := none, message := some "ok", error := none }))
    ∧ (run2 c2Respond c2Schedule
        (initTwo "/api/user/profile" "/api/coaching/plans"
          { method := none, headers := [], body := none }
          { method := none, headers := [], body := none } c2State)).proc2
        = .done (.ok (.jsonData { access_token := none, message := some "ok", error := none })) := by
  exact ⟨by decide, by decide, rfl, rfl⟩

/-- C2 amended: there is no single-flight guard — every request that
observes a 401 while a refresh credential is stored independently issues its
own call to the external auth-refresh endpoint (so N concurrent
401-encountering requests issue N refresh calls, one each, as exhibited by
the two-request interleaving above). -/
theorem c2_amended_each_401_issues_own_refresh
    (endpoint : String) (opts : RequestOptions) (s s₁ : ClientState) (r : HttpResponse)
    (h : r.status = 401) (hrt : strTruthy s₁.refreshToken = true) :
    ∃ req k,
      makeRequestProc endpoint opts s = .fetching req k
      ∧ sentRequestOf (k (.response r) s₁).2
          = some { url := s₁.baseURL ++ "/api/auth/refresh", method := some "POST",
                   headers := [("Content-Type", "application/json"),
                               ("Authorization", "Bearer " ++ jsStr s₁.refreshToken)],
                   body := none, cors := true }
      ∧ isRefreshRequest s₁.baseURL
          { url := s₁.baseURL ++ "/api/auth/refresh", method := some "POST",
            headers := [("Content-Type", "application/json"),
                        ("Authorization", "Bearer " ++ jsStr s₁.refreshToken)],
            body := none, cors := true } = true := by
  refine ⟨_, _, rfl, ?_, ?_⟩
  · simp [h, hrt, refreshAccessTokenProc, sentRequestOf]
  · simp [isRefreshRequest]

/-- Witness for the amended C2 at a concrete state and response. -/
theorem c2_amended_each_401_issues_own_refresh_witness :
    ∃ req k,
      makeRequestProc "/api/user/profile" { method := none, headers := [], body := none }
          c2State = .fetching req k
      ∧ sentRequestOf (k (FetchResult.response
            { status := 401, statusText := "UNAUTHORIZED",
              contentType := some "application/json",
              json := some { access_token := none, message := some "Token has expired",
                             error := none } }) c2State).2
          = some { url := c2State.baseURL ++ "/api/auth/refresh", method := some "POST",
                   headers := [("Content-Type", "application/json"),
                               ("Authorization", "Bearer " ++ jsStr c2State.refreshToken)],
                   body := none, cors := true }
      ∧ isRefreshRequest c2State.baseURL
          { url := c2State.baseURL ++ "/api/auth/refresh", method := some "POST",
            headers := [("Content-Type", "application/json"),
                        ("Authorization", "Bearer " ++ jsStr c2State.refreshToken)],
            body := none, cors := true } = true :=
  c2_amended_each_401_issues_own_refresh "/api/user/profile"
    { method := none, headers := [], body := none } c2State c2State
    { status := 401, statusText := "UNAUTHORIZED", contentType := some "application/json",
      json := some { access_token := none, message := some "Token has expired",
                     error := none } }
    rfl (by decide)

/-! ### C4 — a trigger time already in the past is silently skipped -/

/-- Decode pipeline for the C4 scenario: token `T4` carries
`exp = 1700000299` seconds, i.e. an expiry of 1700000299000 ms. -/
def c4Decode : String → Option JwtPayload := fun t =>
  if t = "T4" then some { exp := some 1700000299, sub := none } else none

/-- Client state for the C4 scenario. -/
def c4State : ClientState :=
  { baseURL := "http://localhost:5001", token := some "T4", refreshToken := some "R4",
    storedAccess := some "T4", storedRefresh := some "R4", redirects := 0 }

/-- C4 counterexample: at `now = 1700000000000` ms the token's expiry
(1700000299000 ms) is exactly `now + margin − 1 second` for the fixed
5-minute margin, so the trigger time is already in the past — yet
`setupTokenRefresh` does nothing at all: it arms no timer and performs no
immediate refresh (`none` is the no-action result), contradicting the claim
that the refresh is triggered immediately rather than skipped. -/
theorem c4_counterexample :
    (1700000299 * 1000 : Int) = 1700000000000 + (5 * 60 * 1000 - 1000)
    ∧ c4Decode "T4" = some { exp := some 1700000299, sub := none }
    ∧ setupTokenRefresh c4Decode 1700000000000 c4State = none := by
  exact ⟨by decide, rfl, by decide⟩

/-- C4 amended: whenever the trigger time (decoded expiry minus the fixed
5-minute margin) is at or before the current time, `setupTokenRefresh` takes
no action — no timer is armed and no immediate refresh is performed — so
proactive refresh is silently skipped and only the reactive 401-driven
refresh remains. -/
theorem c4_amended_past_trigger_is_skipped
    (decodeJwt : String → Option JwtPayload) (now : Int) (s : ClientState)
    (t : String) (p : JwtPayload) (e : Int)
    (ht : s.token = some t) (htt : t ≠ "")
    (hd : decodeJwt t = some p) (he : p.exp = some e)
    (hlate : e * 1000 - 5 * 60 * 1000 ≤ now) :
    setupTokenRefresh decodeJwt now s = none := by
  rw [setupTokenRefresh, ht, strTruthy_some htt]
  simp only [if_true, jsStr, hd, he]
  rw [if_neg (by omega)]

/-- Witness for the amended C4 at the concrete skipped-trigger instance. -/
theorem c4_amended_past_trigger_is_skipped_witness :
    setupTokenRefresh c4Decode 1700000000000 c4State = none :=
  c4_amended_past_trigger_is_skipped c4Decode 1700000000000 c4State "T4"
    { exp := some 1700000299, sub := none } 1700000299
    rfl (by decide) rfl rfl (by decide)

/-! ### C5 — setCredentials neither schedules nor cancels -/

/-- Decode pipeline for the C5 scenario: token `A5` expires at
1700003600000 ms, token `B5` at 1700007200000 ms. -/
def c5Decode : String → Option JwtPayload := fun t =>
  if t = "A5" then some { exp := some 1700003600, sub := none }
  else if t = "B5" then some { exp := some 1700007200, sub := none }
  else none

/-- C5 counterexample: at `now = 1700000000000` ms the constructor arms one
timer for token `A5` (delay 3300000 ms).  Installing fresh credentials `B5`
with `setTokens` leaves the pending-timer set exactly as it was: the old
timer is not cancelled and no timer for `B5` (whose delay would be
6900000 ms, as `setupTokenRefresh` on the new state shows) is armed —
contradicting the claim that every `setCredentials` call decodes the new
expiry, arms a timer, and cancels the previous one. -/
theorem c5_counterexample :
    (constructorInit c5Decode 1700000000000 "localhost"
        (some "A5") (some "R5")).pendingTimers = [3300000]
    ∧ (setTokensS (some "B5") (some "R5")
        (constructorInit c5Decode 1700000000000 "localhost"
          (some "A5") (some "R5"))).pendingTimers = [3300000]
    ∧ setupTokenRefresh c5Decode 1700000000000
        (setTokensS (some "B5") (some "R5")
          (constructorInit c5Decode 1700000000000 "localhost"
            (some "A5") (some "R5"))).client = some 6900000
    ∧ ((setTokensS (some "B5") (some "R5")
        (constructorInit c5Decode 1700000000000 "localhost"
          (some "A5") (some "R5"))).pendingTimers.contains 6900000) = false := by
  exact ⟨by decide, by decide, by decide, by decide⟩

/-- C5 amended: `setTokens` only stores the credential pair — it neither
decodes the new credential's expiry nor arms or cancels any timer, so a
previously armed proactive-refresh timer stays pending across credential
installation; proactive scheduling happens exactly once, in the
constructor, which arms at most one timer. -/
theorem c5_amended_setTokens_does_not_schedule
    (a r : Option String) (ss : SessionState)
    (decodeJwt : String → Option JwtPayload) (now : Int) (hostname : String)
    (storedAccess storedRefresh : Option String) :
    (setTokensS a r ss).pendingTimers = ss.pendingTimers
    ∧ (setTokensS a r ss).client = setTokens a r ss.client
    ∧ (constructorInit decodeJwt now hostname storedAccess storedRefresh).pendingTimers.length
        ≤ 1 := by
  refine ⟨rfl, rfl, ?_⟩
  rw [constructorInit]
  cases setupTokenRefresh decodeJwt now
    { baseURL := getAPIBaseURL hostname, token := storedAccess,
      refreshToken := storedRefresh, storedAccess := storedAccess,
      storedRefresh := storedRefresh, redirects := 0 } <;> simp
